import Mathlib

/-!
Verification of the member-lifecycle state machine of the ananoduerme
moderation bot.  The definitions below are a shallow embedding of the
Python sources `database.py`, `telegram_bot.py`, `commands.py` and the
ingestion loop in `TelegramBot.run`.

Modelling conventions:
* SQLite tables become association lists keyed by `user_id` (the primary
  key of both tables).  `INSERT OR REPLACE` removes every entry with the
  key and appends the fresh row, mirroring REPLACE semantics.
* `CURRENT_TIMESTAMP` becomes a logical clock `DB.now : Nat` that each
  write reads and then advances, so later writes carry larger timestamps.
* Outbound Telegram calls (restrict, unrestrict, kick, sendMessage)
  become an emitted effect list; handlers return the new store state
  together with the effects they issued, in program order.
* `random.randint(1, 10)` in `generate_captcha` becomes two explicit
  arguments `a b : Nat` supplied by the caller.
* The admin-membership lookup `is_user_admin` (an external HTTP call)
  becomes a parameter `admins : Int → Bool`.
* The bot-detection verdict used by the batch scan in
  `CommandHandler.handle_scan_users_command` (an external HTTP lookup)
  becomes a parameter `flagged : Int → Bool`; an API_ERROR result, which
  the scan code skips, coincides with `flagged = false` store-wise.
-/

/-- database.py `Status` -/
inductive Status where
  | verified
  | pending
  | blocked
deriving DecidableEq, Repr

/-- A row of the `users` table (database.py `init_database`). -/
structure UserRow where
  user_name : String
  username : Option String
  status : Status
  chat_id : Option Int
  created_at : Nat
  updated_at : Nat
deriving DecidableEq, Repr

/-- A row of the `pending_verifications` table. -/
structure PendingRow where
  chat_id : Int
  user_name : String
  question : String
  answer : String
  created_at : Nat
deriving DecidableEq, Repr

/-- The persistent store: both tables plus the logical clock standing in
for `CURRENT_TIMESTAMP`. -/
structure DB where
  users : List (Int × UserRow)
  pending : List (Int × PendingRow)
  now : Nat
deriving DecidableEq, Repr

/-- Outbound side-effect calls issued by the handlers. -/
inductive Effect where
  | restrict (chat user : Int)
  | unrestrict (chat user : Int)
  | kick (chat user : Int)
  | sendMessage (chat : Int) (text : String)
deriving DecidableEq, Repr

def Effect.isRestrict : Effect → Bool
  | .restrict _ _ => true
  | _ => false

def Effect.isUnrestrict : Effect → Bool
  | .unrestrict _ _ => true
  | _ => false

def Effect.isKick : Effect → Bool
  | .kick _ _ => true
  | _ => false

def Effect.isSend : Effect → Bool
  | .sendMessage _ _ => true
  | _ => false

/-- Lifecycle events dispatched by `TelegramBot.handle_update`. -/
inductive Event where
  | join (chat uid : Int) (name : String) (isBot : Bool) (username : Option String)
  | leave (chat uid : Int) (name : String)
  | message (chat uid : Int) (text : String) (isBot : Bool)
deriving DecidableEq, Repr

/-! ### Association-list primitives standing in for the SQL point operations -/

/-- Point lookup by primary key (`fetchone` on `WHERE user_id = k`). -/
def alGet {α : Type} (l : List (Int × α)) (k : Int) : Option α :=
  match l with
  | [] => none
  | p :: rest => if p.1 == k then some p.2 else alGet rest k

/-- DELETE ... WHERE user_id = k. -/
def alDel {α : Type} (l : List (Int × α)) (k : Int) : List (Int × α) :=
  match l with
  | [] => []
  | p :: rest => if p.1 == k then alDel rest k else p :: alDel rest k

/-- INSERT OR REPLACE: drop any row with the key, append the new row. -/
def alSet {α : Type} (l : List (Int × α)) (k : Int) (v : α) : List (Int × α) :=
  alDel l k ++ [(k, v)]

theorem alGet_append {α : Type} (l₁ l₂ : List (Int × α)) (k : Int) :
    alGet (l₁ ++ l₂) k = ((alGet l₁ k).orElse (fun _ => alGet l₂ k)) := by
  induction l₁ with
  | nil => simp [alGet]
  | cons p l ih =>
      by_cases h : p.1 = k
      · simp [alGet, h]
      · simpa [alGet, h] using ih

theorem alGet_alDel_self {α : Type} (l : List (Int × α)) (k : Int) :
    alGet (alDel l k) k = none := by
  induction l with
  | nil => simp [alGet, alDel]
  | cons p l ih =>
      by_cases h : p.1 = k
      · simpa [alDel, h] using ih
      · simpa [alDel, alGet, h] using ih

theorem alGet_alDel_ne {α : Type} (l : List (Int × α)) (k k' : Int)
    (h : k' ≠ k) : alGet (alDel l k) k' = alGet l k' := by
  induction l with
  | nil => simp [alDel]
  | cons p l ih =>
      by_cases hp : p.1 = k
      · simpa [alDel, alGet, hp, h, Ne.symm h] using ih
      · by_cases hq : p.1 = k'
        · simp [alDel, alGet, hp, hq, h, Ne.symm h]
        · simpa [alDel, alGet, hp, hq] using ih

theorem alGet_alSet_self {α : Type} (l : List (Int × α)) (k : Int) (v : α) :
    alGet (alSet l k v) k = some v := by
  simp [alSet, alGet_append, alGet_alDel_self, alGet]

theorem alGet_alSet_ne {α : Type} (l : List (Int × α)) (k k' : Int) (v : α)
    (h : k' ≠ k) : alGet (alSet l k v) k' = alGet l k' := by
  have hkk : k ≠ k' := Ne.symm h
  simp [alSet, alGet_append, alGet_alDel_ne l k k' h, alGet, hkk]

/-! ### database.py operations -/

/-- Database.is_user_verified: `SELECT status FROM users WHERE user_id = ?
AND status = verified` (user_id is the primary key, so the EXISTS test
is a point lookup). -/
def is_user_verified (s : DB) (uid : Int) : Bool :=
  match alGet s.users uid with
  | some r => r.status == .verified
  | none => false

/-- Database.is_user_blocked. -/
def is_user_blocked (s : DB) (uid : Int) : Bool :=
  match alGet s.users uid with
  | some r => r.status == .blocked
  | none => false

/-- Database.get_pending_verification. -/
def get_pending_verification (s : DB) (uid : Int) : Option PendingRow :=
  alGet s.pending uid

/-- Database.upsert_user: `INSERT OR REPLACE INTO users (user_id,
user_name, username, status, chat_id, updated_at) VALUES (?,?,?,?,?,
CURRENT_TIMESTAMP)`.  `created_at` is absent from the column list, so the
replacing row takes the DEFAULT `CURRENT_TIMESTAMP`: both timestamps are
the write time. -/
def upsert_user (s : DB) (uid : Int) (name : String) (st : Status)
    (username : Option String) (chat_id : Option Int) : DB :=
  { s with
      users := alSet s.users uid
        { user_name := name, username := username, status := st,
          chat_id := chat_id, created_at := s.now, updated_at := s.now }
      now := s.now + 1 }

/-- Database.add_verified_user (defaults username=None, chat_id=None). -/
def add_verified_user (s : DB) (uid : Int) (name : String)
    (username : Option String) (chat_id : Option Int) : DB :=
  upsert_user s uid name .verified username chat_id

/-- Database.add_blocked_user (chat_id defaults to None at every call
site). -/
def add_blocked_user (s : DB) (uid : Int) (name : String)
    (username : Option String) : DB :=
  upsert_user s uid name .blocked username none

/-- The second statement of Database.add_pending_verification: `INSERT OR
REPLACE INTO pending_verifications`. -/
def insertPendingRow (s : DB) (uid chat : Int) (name q a : String) : DB :=
  { s with
      pending := alSet s.pending uid
        { chat_id := chat, user_name := name, question := q, answer := a,
          created_at := s.now }
      now := s.now + 1 }

/-- Database.add_pending_verification runs as TWO separate connections,
each committing on its own: first `upsert_user(..., pending, ...)`, then
the challenge insert.  `fail2 = true` injects a store failure between the
two commits (the second connection raising), which leaves only the first
write persisted; the Bool result is false when the call raised. -/
def add_pending_verification_f (fail2 : Bool) (s : DB) (uid chat : Int)
    (name q a : String) : DB × Bool :=
  let s1 := upsert_user s uid name .pending none (some chat)
  if fail2 then (s1, false) else (insertPendingRow s1 uid chat name q a, true)

/-- Database.add_pending_verification on the failure-free path. -/
def add_pending_verification (s : DB) (uid chat : Int)
    (name q a : String) : DB :=
  (add_pending_verification_f false s uid chat name q a).1

/-- Database.remove_pending_verification. -/
def remove_pending_verification (s : DB) (uid : Int) : DB :=
  { s with pending := alDel s.pending uid }

/-- Row-retention test of the first DELETE of Database.remove_user: a
row survives unless it has the given user_id AND status blocked. -/
def keepUnlessBlocked (uid : Int) (p : Int × UserRow) : Bool :=
  !(p.1 == uid && p.2.status == Status.blocked)

/-- Database.remove_user: `DELETE FROM users WHERE user_id = ? AND
status = blocked` followed by an UNCONDITIONAL `DELETE FROM
pending_verifications WHERE user_id = ?`. -/
def remove_user (s : DB) (uid : Int) : DB :=
  { s with
      users := s.users.filter (keepUnlessBlocked uid)
      pending := alDel s.pending uid }

/-- Ordering relation of `ORDER BY created_at DESC`. -/
def createdDesc (u v : Int × UserRow) : Prop :=
  v.2.created_at ≤ u.2.created_at

instance : DecidableRel createdDesc := fun u v =>
  inferInstanceAs (Decidable (v.2.created_at ≤ u.2.created_at))

instance : IsTotal (Int × UserRow) createdDesc :=
  ⟨fun a b => Nat.le_total b.2.created_at a.2.created_at⟩

instance : IsTrans (Int × UserRow) createdDesc :=
  ⟨fun _ _ _ hab hbc => Nat.le_trans hbc hab⟩

/-- Database.get_blocked_users: `SELECT ... WHERE status = blocked ORDER
BY created_at DESC`. -/
def get_blocked_users (s : DB) : List (Int × UserRow) :=
  List.insertionSort createdDesc
    (s.users.filter (fun p => p.2.status == Status.blocked))

/-- Database.get_all_users_for_scanning: `SELECT ... WHERE status !=
blocked ORDER BY created_at DESC`. -/
def get_all_users_for_scanning (s : DB) : List (Int × UserRow) :=
  List.insertionSort createdDesc
    (s.users.filter (fun p => p.2.status != Status.blocked))

/-- Well-formedness delivered by the PRIMARY KEY constraint: at most one
row per user_id. -/
abbrev usersKeysNodup (s : DB) : Prop :=
  (s.users.map (·.1)).Nodup

/-! ### Message templates (settings.py defaults, rendered by
concatenation; the display-only newline handling of the Python
`.replace` calls is immaterial to the claims and kept as plain text) -/

def captchaQuestion (a b : Nat) : String :=
  "¿Cuánto es " ++ toString a ++ " + " ++ toString b ++
    "? (Por favor responde solo con el número)"

def welcomeMessage (userName question : String) : String :=
  "¡Bienvenido " ++ userName ++
    "! 🤖 Para verificar que eres humano, por favor responde esta pregunta: " ++
    question ++ " Responde solo con el número. Has sido restringido temporalmente hasta la verificación."

def successMessage (userName : String) : String :=
  "✅ ¡Verificación exitosa! ¡Bienvenido al chat, " ++ userName ++ "!"

def errorMessage (question : String) : String :=
  "❌ Respuesta incorrecta. Por favor inténtalo de nuevo. " ++ question

def usernameDisplay (username : Option String) : String :=
  match username with
  | some u => u
  | none => "sin_username"

def botDetectedMessage (userName : String) (username : Option String) : String :=
  "🚫 Bot detectado: " ++ userName ++ " (@" ++ usernameDisplay username ++
    ") - Los bots no están permitidos en este grupo. Eliminado automáticamente."

/-- Python `str.strip()`: drop leading and trailing whitespace.  (Lean
`String.trim` has the same semantics but is not kernel-reducible, so the
character-list form is used.) -/
def pyStrip (s : String) : String :=
  ⟨((s.data.dropWhile Char.isWhitespace).reverse.dropWhile
      Char.isWhitespace).reverse⟩

def charsStartWith : List Char → List Char → Bool
  | _, [] => true
  | [], _ :: _ => false
  | c :: cs, d :: ds => c == d && charsStartWith cs ds

/-- Python `str.startswith`. -/
def pyStartsWith (s t : String) : Bool := charsStartWith s.data t.data

/-! ### telegram_bot.py handlers -/

/-- TelegramBot.generate_captcha with the two `random.randint(1, 10)`
draws passed in as `a` and `b`. -/
def generate_captcha (a b : Nat) : String × String :=
  (captchaQuestion a b, toString (a + b))

/-- TelegramBot.handle_bot_user: skip when already blocked, otherwise
restrict, record Blocked, kick and post the public notice (in that
program order). -/
def handle_bot_user (s : DB) (chat uid : Int) (name : String)
    (username : Option String) : DB × List Effect :=
  if is_user_blocked s uid then (s, [])
  else
    let s1 := add_blocked_user s uid name username
    (s1, [Effect.restrict chat uid, Effect.kick chat uid,
          Effect.sendMessage chat (botDetectedMessage name username)])

/-- TelegramBot.handle_left_member: drop a pending verification if one
exists, keep verified users, delete the user row if blocked.  Note the
handler takes no bot-identity argument: the source performs no
self-identity check here. -/
def handle_left_member (s : DB) (_chat uid : Int) (_name : String) :
    DB × List Effect :=
  let s1 :=
    if (get_pending_verification s uid).isSome then
      remove_pending_verification s uid
    else s
  let s2 := if is_user_blocked s1 uid then remove_user s1 uid else s1
  (s2, [])

/-- TelegramBot.handle_new_member with the store failure injection of
`add_pending_verification_f` threaded through (`fail2 = false` is the
failure-free run).  The Bool result is false when the pending insert
raised; the effects already issued before the raise are kept, the
ones after it are not. -/
def handle_new_member_f (fail2 : Bool) (botId : Option Int) (s : DB)
    (chat uid : Int) (name : String) (isBot : Bool)
    (username : Option String) (a b : Nat) : DB × List Effect × Bool :=
  if botId = some uid then (s, [], true)
  else if isBot then
    let r := handle_bot_user s chat uid name username
    (r.1, r.2, true)
  else if is_user_verified s uid then (s, [], true)
  else
    match get_pending_verification s uid with
    | some pd => (s, [Effect.sendMessage chat (welcomeMessage name pd.question)], true)
    | none =>
      let q := (generate_captcha a b).1
      let ans := (generate_captcha a b).2
      let r := add_pending_verification_f fail2 s uid chat name q ans
      if r.2 then
        (r.1, [Effect.restrict chat uid,
               Effect.sendMessage chat (welcomeMessage name q)], true)
      else (r.1, [Effect.restrict chat uid], false)

/-- TelegramBot.handle_new_member on the failure-free path. -/
def handle_new_member (botId : Option Int) (s : DB) (chat uid : Int)
    (name : String) (isBot : Bool) (username : Option String)
    (a b : Nat) : DB × List Effect :=
  let r := handle_new_member_f false botId s chat uid name isBot username a b
  (r.1, r.2.1)

/-! ### commands / admin surface (telegram_bot.py and commands.py) -/

def bannedHeader : String := "🚫 Banned Users List:\n\n"

/-- One numbered entry of the banned list (the `[:19]` truncation of the
textual timestamp is rendering-only). -/
def bannedUserLine (i : Nat) (uid : Int) (r : UserRow) : String :=
  toString i ++ ". " ++ r.user_name ++ " (" ++
    (match r.username with
     | some u => "@" ++ u
     | none => "sin_username") ++ ")\n   ID: " ++ toString uid ++
    "\n   Banned: " ++ toString r.created_at ++ "\n\n"

/-- The chunk-splitting loop of handle_list_banned_command: accumulate
lines into chunks of at most about 4000 characters. -/
def chunkLines (lines : List String) : List String :=
  let step := fun (acc : List String × String) (line : String) =>
    if (acc.2 ++ line).length > 4000 then (acc.1 ++ [acc.2], line)
    else (acc.1, acc.2 ++ line)
  let fin := lines.foldl step ([], bannedHeader)
  if fin.2 = "" then fin.1 else fin.1 ++ [fin.2]

/-- TelegramBot.handle_list_banned_command.  `admins` is the external
`is_user_admin` capability. -/
def handle_list_banned_command (admins : Int → Bool) (s : DB)
    (chat uid : Int) : DB × List Effect :=
  if admins uid = false then
    (s, [Effect.sendMessage chat "❌ Only administrators can use this command."])
  else
    let blocked := get_blocked_users s
    if blocked.isEmpty then
      (s, [Effect.sendMessage chat "✅ No banned users found."])
    else
      let lines := blocked.enum.map (fun p => bannedUserLine (p.1 + 1) p.2.1 p.2.2)
      let full := String.join (bannedHeader :: lines)
      if full.length ≤ 4096 then (s, [Effect.sendMessage chat full])
      else
        let chunks := chunkLines lines
        (s, chunks.enum.map (fun p =>
          if p.1 = 0 then Effect.sendMessage chat p.2
          else Effect.sendMessage chat ("🚫 Banned Users List (continued):\n\n" ++ p.2)))

/-- TelegramBot.handle_command: `text.split()[0].lower()`, routed only
for /banned and /listbanned.  The caller guarantees `text` starts with
"/" (non-whitespace), so the first whitespace-split token is the leading
run of non-whitespace characters. -/
def handle_command (admins : Int → Bool) (s : DB) (chat uid : Int)
    (text : String) : DB × List Effect :=
  let command := (text.takeWhile (fun c => !c.isWhitespace)).toLower
  if command = "/banned" ∨ command = "/listbanned" then
    handle_list_banned_command admins s chat uid
  else (s, [])

/-- TelegramBot.handle_message: bot senders ignored, command texts
routed to handle_command, otherwise the pending-challenge answer check
with `text.strip()` compared for string equality. -/
def handle_message (admins : Int → Bool) (s : DB) (chat uid : Int)
    (text : String) (isBot : Bool) : DB × List Effect :=
  if isBot then (s, [])
  else if pyStartsWith text "/" then handle_command admins s chat uid text
  else
    match get_pending_verification s uid with
    | some ud =>
      if pyStrip text = ud.answer then
        let s1 := add_verified_user s uid ud.user_name none none
        let s2 := remove_pending_verification s1 uid
        (s2, [Effect.unrestrict chat uid,
              Effect.sendMessage chat (successMessage ud.user_name)])
      else (s, [Effect.sendMessage chat (errorMessage ud.question)])
    | none => (s, [])

/-- TelegramBot.handle_update dispatch (one event per update). -/
def handle_update (botId : Option Int) (admins : Int → Bool) (s : DB)
    (ev : Event) (a b : Nat) : DB × List Effect :=
  match ev with
  | .join chat uid name isBot username =>
      handle_new_member botId s chat uid name isBot username a b
  | .leave chat uid name => handle_left_member s chat uid name
  | .message chat uid text isBot => handle_message admins s chat uid text isBot

/-- The store mutations of CommandHandler.handle_scan_users_command
(commands.py): walk `get_all_users_for_scanning` and mark every user the
external detector flags as blocked; users with an API_ERROR verdict and
unflagged users leave the store untouched.  Progress messages are
side-effect only and elided. -/
def scan_users (flagged : Int → Bool) (s : DB) : DB :=
  (get_all_users_for_scanning s).foldl
    (fun acc u =>
      if flagged u.1 then add_blocked_user acc u.1 u.2.user_name u.2.username
      else acc) s

/-! ### Event ingestion loop (TelegramBot.run) -/

/-- One fetched update: a feed event tagged with its update_id. -/
structure Update where
  update_id : Nat
  ev : Event
deriving DecidableEq, Repr

/-- The inner for-loop of TelegramBot.run over one fetched batch.
`ok u` is true when `handle_update u` returns without raising; an
exception aborts the whole batch (caught by the enclosing except), so
the cursor keeps the value reached before the failing update. -/
def runIteration (ok : Update → Bool) (offset : Nat) :
    List Update → Nat
  | [] => offset
  | u :: rest =>
      if ok u then runIteration ok (u.update_id + 1) rest else offset

/-- getUpdates(offset): the feed returns the retained updates whose id
is at least the cursor. -/
def fetchFrom (all : List Update) (offset : Nat) : List Update :=
  all.filter (fun u => offset ≤ u.update_id)

/-- `n` iterations of the while-loop of TelegramBot.run: fetch from the
cursor, process the batch, loop with the cursor the batch reached (a
failed batch leaves it where the failure happened and retries after the
backoff sleep). -/
def loopOffset (ok : Update → Bool) (all : List Update) (offset : Nat) :
    Nat → Nat
  | 0 => offset
  | n + 1 => loopOffset ok all (runIteration ok offset (fetchFrom all offset)) n

/-! ### Helper lemmas -/

theorem handle_list_banned_fst (admins : Int → Bool) (s : DB)
    (chat uid : Int) : (handle_list_banned_command admins s chat uid).1 = s := by
  unfold handle_list_banned_command
  dsimp only
  split
  · rfl
  · split
    · rfl
    · split <;> rfl

theorem handle_command_fst (admins : Int → Bool) (s : DB) (chat uid : Int)
    (text : String) : (handle_command admins s chat uid text).1 = s := by
  unfold handle_command
  dsimp only
  split
  · exact handle_list_banned_fst admins s chat uid
  · rfl

theorem alGet_eq_none_of_keys {α : Type} (l : List (Int × α)) (k : Int)
    (h : ∀ p ∈ l, p.1 ≠ k) : alGet l k = none := by
  induction l with
  | nil => rfl
  | cons p l ih =>
      have hp := h p (by simp)
      simpa [alGet, hp] using ih (fun q hq => h q (by simp [hq]))

theorem alGet_filter_sub {α : Type} (l : List (Int × α)) (q : Int × α → Bool)
    (k : Int) (h : ∀ p ∈ l, p.1 ≠ k) : alGet (l.filter q) k = none := by
  refine alGet_eq_none_of_keys _ _ (fun p hp => h p ?_)
  exact List.mem_of_mem_filter hp

/-- The users-table effect of Database.remove_user at the targeted key,
under the PRIMARY KEY uniqueness of user_id: the row disappears exactly
when its status is blocked. -/
theorem alGet_rmblocked_self (l : List (Int × UserRow)) (k : Int)
    (hnd : (l.map (·.1)).Nodup) :
    alGet (l.filter (keepUnlessBlocked k)) k =
      match alGet l k with
      | some r => if r.status = Status.blocked then none else some r
      | none => none := by
  induction l with
  | nil => rfl
  | cons p l ih =>
      have hnd' : (l.map (·.1)).Nodup := (List.nodup_cons.mp hnd).2
      have hpnot : p.1 ∉ l.map (·.1) := (List.nodup_cons.mp hnd).1
      by_cases hp : p.1 = k
      · by_cases hb : p.2.status = Status.blocked
        · have hcond : keepUnlessBlocked k p = false := by
            simp [keepUnlessBlocked, hp, hb]
          have hnone : alGet (l.filter (keepUnlessBlocked k)) k = none := by
            refine alGet_filter_sub l _ k (fun q hq hqk => hpnot ?_)
            have : q.1 ∈ l.map (·.1) := List.mem_map_of_mem (·.1) hq
            rwa [hqk, ← hp] at this
          simp [List.filter_cons, hcond, alGet, hnone, hp, hb]
        · have hcond : keepUnlessBlocked k p = true := by
            simp [keepUnlessBlocked, hb]
          simp [List.filter_cons, hcond, alGet, hp, hb]
      · have hcond : keepUnlessBlocked k p = true := by
          simp [keepUnlessBlocked, hp]
        simpa [List.filter_cons, hcond, alGet, hp] using ih hnd'

/-- Database.remove_user leaves every other user untouched (first-match
lookup, no uniqueness needed). -/
theorem alGet_rmblocked_ne (l : List (Int × UserRow)) (k k' : Int)
    (h : k' ≠ k) :
    alGet (l.filter (keepUnlessBlocked k)) k' = alGet l k' := by
  induction l with
  | nil => rfl
  | cons p l ih =>
      by_cases hdrop : keepUnlessBlocked k p = false
      · have hp : p.1 = k := by
          by_contra hc
          simp [keepUnlessBlocked, hc] at hdrop
        have hp' : p.1 ≠ k' := by simpa [hp] using Ne.symm h
        simpa [List.filter_cons, hdrop, alGet, hp'] using ih
      · have hkeep : keepUnlessBlocked k p = true := by
          simpa using hdrop
        by_cases hq : p.1 = k'
        · simp [List.filter_cons, hkeep, alGet, hq]
        · simpa [List.filter_cons, hkeep, alGet, hq] using ih

/-- The batch of TelegramBot.run stops at the first failing update and
keeps the cursor it reached before it; everything before the failure
advances it as usual. -/
theorem runIteration_stops_at_failure (ok : Update → Bool) (offset : Nat)
    (pre : List Update) (u : Update) (post : List Update)
    (hpre : ∀ v ∈ pre, ok v = true) (hu : ok u = false) :
    runIteration ok offset (pre ++ u :: post) = runIteration ok offset pre := by
  induction pre generalizing offset with
  | nil => simp [runIteration, hu]
  | cons v pre ih =>
      have hv : ok v = true := hpre v (by simp)
      simpa [runIteration, hv] using
        ih (v.update_id + 1) (fun w hw => hpre w (by simp [hw]))

/-- While the head of every fetched batch keeps failing, no number of
loop iterations moves the cursor. -/
theorem loopOffset_pinned (ok : Update → Bool) (all : List Update)
    (offset : Nat) (u : Update) (rest : List Update)
    (hfetch : fetchFrom all offset = u :: rest) (hu : ok u = false) :
    ∀ n, loopOffset ok all offset n = offset := by
  intro n
  induction n with
  | zero => rfl
  | succ n ih =>
      have hrun : runIteration ok offset (fetchFrom all offset) = offset := by
        rw [hfetch]; simp [runIteration, hu]
      simpa [loopOffset, hrun] using ih

/-- The status/challenge coupling of spec section 3: a user has status
Pending exactly when a pending_verifications row exists for them. -/
def coupling (s : DB) : Prop :=
  ∀ uid : Int,
    ((alGet s.users uid).map UserRow.status = some Status.pending) ↔
      (alGet s.pending uid).isSome = true

/-- handle_message preserves the status/challenge coupling. -/
theorem coupling_handle_message (admins : Int → Bool) (s : DB)
    (chat uid : Int) (text : String) (isBot : Bool) (h : coupling s) :
    coupling (handle_message admins s chat uid text isBot).1 := by
  unfold handle_message
  by_cases hb : isBot = true
  · simpa [hb] using h
  · by_cases hcmd : pyStartsWith text "/" = true
    · simpa [hb, hcmd, handle_command_fst] using h
    · cases hpd : get_pending_verification s uid with
      | none => simpa [hb, hcmd, hpd] using h
      | some ud =>
          by_cases hans : pyStrip text = ud.answer
          · simp only [hb, hcmd, hpd, hans, if_true, if_false,
              Bool.false_eq_true, remove_pending_verification,
              add_verified_user, upsert_user]
            intro k
            by_cases hk : k = uid
            · subst hk
              simp [alGet_alSet_self, alGet_alDel_self]
            · simpa [alGet_alSet_ne _ _ _ _ hk, alGet_alDel_ne _ _ _ hk]
                using h k
          · simpa [hb, hcmd, hpd, hans] using h

/-- A non-flagged join preserves the status/challenge coupling. -/
theorem coupling_handle_join (botId : Option Int) (s : DB) (chat uid : Int)
    (name : String) (username : Option String) (a b : Nat) (h : coupling s) :
    coupling (handle_new_member botId s chat uid name false username a b).1 := by
  unfold handle_new_member handle_new_member_f
  by_cases hself : botId = some uid
  · simpa [hself] using h
  · by_cases hv : is_user_verified s uid = true
    · simpa [hself, hv] using h
    · cases hpd : get_pending_verification s uid with
      | some pd => simpa [hself, hv, hpd] using h
      | none =>
          simp only [hself, hv, hpd, if_false, if_true, Bool.false_eq_true,
            add_pending_verification_f, insertPendingRow, upsert_user]
          intro k
          by_cases hk : k = uid
          · subst hk
            simp [alGet_alSet_self]
          · simpa [alGet_alSet_ne _ _ _ _ hk] using h k

/-- The correct-answer branch of handle_message, fully evaluated. -/
theorem handle_message_correct (admins : Int → Bool) (s : DB)
    (chat uid : Int) (text : String) (pd : PendingRow)
    (hpd : get_pending_verification s uid = some pd)
    (hcmd : pyStartsWith text "/" = false)
    (hans : pyStrip text = pd.answer) :
    handle_message admins s chat uid text false =
      ({ users := alSet s.users uid
           { user_name := pd.user_name, username := none,
             status := .verified, chat_id := none,
             created_at := s.now, updated_at := s.now },
         pending := alDel s.pending uid, now := s.now + 1 },
       [Effect.unrestrict chat uid,
        Effect.sendMessage chat (successMessage pd.user_name)]) := by
  simp [handle_message, hcmd, hpd, hans, add_verified_user, upsert_user,
    remove_pending_verification]

/-- The wrong-answer branch of handle_message, fully evaluated. -/
theorem handle_message_wrong (admins : Int → Bool) (s : DB)
    (chat uid : Int) (text : String) (pd : PendingRow)
    (hpd : get_pending_verification s uid = some pd)
    (hcmd : pyStartsWith text "/" = false)
    (hans : ¬ pyStrip text = pd.answer) :
    handle_message admins s chat uid text false =
      (s, [Effect.sendMessage chat (errorMessage pd.question)]) := by
  simp [handle_message, hcmd, hpd, hans]

/-! ### Claims -/

/-- Sample pending challenge with expected_answer "7"
(chat_id 100, user alice, question 3 + 4, created_at 0). -/
def pdC2 : PendingRow := ⟨100, "alice", "3 + 4", "7", 0⟩

/-- Sample users-table row: alice is Pending, with a handle and an
origin chat recorded. -/
def urC2 : UserRow := ⟨"alice", some "alicehandle", Status.pending, some 100, 0, 0⟩

/-- Sample store: user 1 is Pending with the challenge above. -/
def sC2 : DB := ⟨[(1, urC2)], [(1, pdC2)], 1⟩

/-- Claim C2: for a Pending user whose stored expected_answer is "7",
the message "7" (and the padded " 7 ") moves the status to Verified,
deletes the PendingChallenge row and issues exactly one unrestrict call,
while "seven" leaves the status Pending, keeps the challenge row and
issues no unrestrict call. -/
theorem C2_correct_answer_path (admins : Int → Bool) (s : DB)
    (chat uid : Int) (pd : PendingRow)
    (hst : (alGet s.users uid).map UserRow.status = some Status.pending)
    (hpd : get_pending_verification s uid = some pd)
    (hans : pd.answer = "7") :
    ((alGet (handle_message admins s chat uid "7" false).1.users uid).map
        UserRow.status = some Status.verified ∧
      get_pending_verification (handle_message admins s chat uid "7" false).1
        uid = none ∧
      (handle_message admins s chat uid "7" false).2.countP
        Effect.isUnrestrict = 1) ∧
    ((alGet (handle_message admins s chat uid " 7 " false).1.users uid).map
        UserRow.status = some Status.verified ∧
      get_pending_verification (handle_message admins s chat uid " 7 "
        false).1 uid = none ∧
      (handle_message admins s chat uid " 7 " false).2.countP
        Effect.isUnrestrict = 1) ∧
    ((alGet (handle_message admins s chat uid "seven" false).1.users uid).map
        UserRow.status = some Status.pending ∧
      get_pending_verification (handle_message admins s chat uid "seven"
        false).1 uid = some pd ∧
      (handle_message admins s chat uid "seven" false).2.countP
        Effect.isUnrestrict = 0) := by
  have h1 := handle_message_correct admins s chat uid "7" pd hpd
    (by decide) (by rw [hans]; decide)
  have h2 := handle_message_correct admins s chat uid " 7 " pd hpd
    (by decide) (by rw [hans]; decide)
  have h3 := handle_message_wrong admins s chat uid "seven" pd hpd
    (by decide) (by rw [hans]; decide)
  refine ⟨⟨?_, ?_, ?_⟩, ⟨?_, ?_, ?_⟩, ⟨?_, ?_, ?_⟩⟩
  · rw [h1]; simp [alGet_alSet_self]
  · rw [h1]; simp [get_pending_verification, alGet_alDel_self]
  · rw [h1]; simp [List.countP_cons, Effect.isUnrestrict]
  · rw [h2]; simp [alGet_alSet_self]
  · rw [h2]; simp [get_pending_verification, alGet_alDel_self]
  · rw [h2]; simp [List.countP_cons, Effect.isUnrestrict]
  · rw [h3]; exact hst
  · rw [h3]; exact hpd
  · rw [h3]; simp [List.countP_cons, Effect.isUnrestrict]

/-- Witness for C2 at the sample store. -/
theorem C2_correct_answer_witness :
    ((alGet sC2.users 1).map UserRow.status = some Status.pending ∧
      get_pending_verification sC2 1 = some pdC2 ∧
      pdC2.answer = "7") ∧
    (((alGet (handle_message (fun _ => false) sC2 100 1 "7" false).1.users
          1).map UserRow.status = some Status.verified ∧
      get_pending_verification (handle_message (fun _ => false) sC2 100 1 "7"
        false).1 1 = none ∧
      (handle_message (fun _ => false) sC2 100 1 "7" false).2.countP
        Effect.isUnrestrict = 1) ∧
    ((alGet (handle_message (fun _ => false) sC2 100 1 " 7 " false).1.users
          1).map UserRow.status = some Status.verified ∧
      get_pending_verification (handle_message (fun _ => false) sC2 100 1
        " 7 " false).1 1 = none ∧
      (handle_message (fun _ => false) sC2 100 1 " 7 " false).2.countP
        Effect.isUnrestrict = 1) ∧
    ((alGet (handle_message (fun _ => false) sC2 100 1 "seven" false).1.users
          1).map UserRow.status = some Status.pending ∧
      get_pending_verification (handle_message (fun _ => false) sC2 100 1
        "seven" false).1 1 = some pdC2 ∧
      (handle_message (fun _ => false) sC2 100 1 "seven" false).2.countP
        Effect.isUnrestrict = 0)) :=
  ⟨⟨by decide, by decide, by decide⟩,
    C2_correct_answer_path (fun _ => false) sC2 100 1 pdC2
      (by decide) (by decide) (by decide)⟩

/-- Claim C9: resolving a pending verification with the correct answer
replaces the whole user row via upsert with username and chat_id None:
whatever handle or origin chat the previous row carried, the new row has
both fields null (and status Verified, the name taken from the challenge
row, both timestamps the write time). -/
theorem C9_verify_resets_fields (admins : Int → Bool) (s : DB)
    (chat uid : Int) (text : String) (pd : PendingRow) (ur : UserRow)
    (_hur : alGet s.users uid = some ur)
    (_hnn : ur.username.isSome = true ∨ ur.chat_id.isSome = true)
    (hpd : get_pending_verification s uid = some pd)
    (hcmd : pyStartsWith text "/" = false)
    (hans : pyStrip text = pd.answer) :
    alGet (handle_message admins s chat uid text false).1.users uid =
      some ⟨pd.user_name, none, Status.verified, none, s.now, s.now⟩ := by
  rw [handle_message_correct admins s chat uid text pd hpd hcmd hans]
  simp [alGet_alSet_self]

/-- Witness for C9 at the sample store (alice has both a handle and an
origin chat; after answering "7" both are gone). -/
theorem C9_verify_resets_fields_witness :
    alGet sC2.users 1 = some urC2 ∧
    (urC2.username.isSome = true ∨ urC2.chat_id.isSome = true) ∧
    get_pending_verification sC2 1 = some pdC2 ∧
    alGet (handle_message (fun _ => false) sC2 100 1 "7" false).1.users 1 =
      some ⟨"alice", none, Status.verified, none, 1, 1⟩ :=
  ⟨by decide, Or.inl (by decide), by decide,
    C9_verify_resets_fields (fun _ => false) sC2 100 1 "7" pdC2 urC2
      (by decide) (Or.inl (by decide)) (by decide) (by decide) (by decide)⟩

/-- Counterexample to claim C6: for a Pending user with a challenge row,
remove_user is NOT a no-op — the user row stays (status is not Blocked)
but the PendingChallenge row is deleted anyway. -/
theorem C6_remove_user_counterexample :
    (alGet sC2.users 1).map UserRow.status = some Status.pending ∧
    (alGet sC2.pending 1).isSome = true ∧
    remove_user sC2 1 ≠ sC2 ∧
    alGet (remove_user sC2 1).pending 1 = none ∧
    alGet (remove_user sC2 1).users 1 = alGet sC2.users 1 := by decide

/-- Claim C6 (amended): remove_user deletes the User row exactly when the
current status is Blocked and leaves it untouched otherwise, but ALWAYS
deletes any PendingChallenge row for that user_id; rows of other users
are untouched, as is the clock. -/
theorem C6_remove_user_amended (s : DB) (uid : Int)
    (hnd : usersKeysNodup s) :
    (alGet (remove_user s uid).users uid =
      match alGet s.users uid with
      | some r => if r.status = Status.blocked then none else some r
      | none => none) ∧
    (∀ k, k ≠ uid → alGet (remove_user s uid).users k = alGet s.users k) ∧
    alGet (remove_user s uid).pending uid = none ∧
    (∀ k, k ≠ uid → alGet (remove_user s uid).pending k = alGet s.pending k) ∧
    (remove_user s uid).now = s.now := by
  refine ⟨?_, ?_, ?_, ?_, rfl⟩
  · exact alGet_rmblocked_self s.users uid hnd
  · exact fun k hk => alGet_rmblocked_ne s.users uid k hk
  · exact alGet_alDel_self s.pending uid
  · exact fun k hk => alGet_alDel_ne s.pending uid k hk

/-- Witness for the amended C6 at the sample store. -/
theorem C6_remove_user_witness :
    usersKeysNodup sC2 ∧
    alGet (remove_user sC2 1).pending 1 = none ∧
    (remove_user sC2 1).now = sC2.now :=
  ⟨by decide, (C6_remove_user_amended sC2 1 (by decide)).2.2.1,
    (C6_remove_user_amended sC2 1 (by decide)).2.2.2.2⟩

/-- Sample store for the self-event claims: a Blocked row recorded under
id 5, which is also the bot identity in the scenarios below. -/
def sC5 : DB := ⟨[(5, ⟨"badbot", none, Status.blocked, none, 0, 0⟩)], [], 1⟩

/-- Counterexample to claim C5: a Leave event whose user_id equals the
bot identity (botId = some 5) is NOT ignored — handle_left_member has no
self-identity check, and here it mutates the store by deleting the
Blocked row stored under the bot id. -/
theorem C5_self_event_counterexample :
    (handle_update (some 5) (fun _ => false) sC5
        (Event.leave 100 5 "badbot") 1 1).1 ≠ sC5 ∧
    alGet (handle_update (some 5) (fun _ => false) sC5
        (Event.leave 100 5 "badbot") 1 1).1.users 5 = none ∧
    (alGet sC5.users 5).isSome = true := by decide

/-- Claim C5 (amended): only the Join handler performs the
self-identity-first check: a Join whose user_id equals the bot id is
ignored before any other rule with zero effects and zero mutations, and
a Message from a bot sender (which covers the bot itself) is likewise
ignored; the Leave handler has no self check (see the counterexample). -/
theorem C5_self_event_amended :
    (∀ (botId : Option Int) (admins : Int → Bool) (s : DB) (chat uid : Int)
        (name : String) (isBot : Bool) (username : Option String) (a b : Nat),
      botId = some uid →
      handle_update botId admins s (Event.join chat uid name isBot username)
        a b = (s, [])) ∧
    (∀ (botId : Option Int) (admins : Int → Bool) (s : DB) (chat uid : Int)
        (text : String) (a b : Nat),
      handle_update botId admins s (Event.message chat uid text true) a b =
        (s, [])) := by
  constructor
  · intro botId admins s chat uid name isBot username a b hself
    simp [handle_update, handle_new_member, handle_new_member_f, hself]
  · intro botId admins s chat uid text a b
    simp [handle_update, handle_message]

/-- Witness for the amended C5. -/
theorem C5_self_event_witness :
    handle_update (some 5) (fun _ => false) sC5
        (Event.join 100 5 "badbot" true none) 1 1 = (sC5, []) ∧
    handle_update (some 5) (fun _ => false) sC5
        (Event.message 100 5 "hi" true) 1 1 = (sC5, []) :=
  ⟨C5_self_event_amended.1 (some 5) (fun _ => false) sC5 100 5 "badbot"
      true none 1 1 rfl,
    C5_self_event_amended.2 (some 5) (fun _ => false) sC5 100 5 "hi" 1 1⟩

/-- The empty store. -/
def sE : DB := ⟨[], [], 0⟩

/-- Counterexample to claim C3: a flagged Join whose user_id equals the
bot identity (botId = some 5) is skipped by the self check, so it does
NOT leave the user Blocked and triggers none of restrict/kick/notice. -/
theorem C3_flagged_join_counterexample :
    handle_update (some 5) (fun _ => false) sE
        (Event.join 100 5 "spambot" true (some "sb")) 1 1 = (sE, []) ∧
    (alGet sE.users 5).map UserRow.status ≠ some Status.blocked := by decide

/-- Claim C3 (amended): a flagged Join of a non-self user who is not
already Blocked creates no PendingChallenge, leaves the status Blocked,
and triggers restrict, kick and the public notice exactly once in total
even when the same event is processed twice (the redelivery is a no-op
because the user is Blocked by then; a user already Blocked beforehand
would get zero side effects even on the first delivery). -/
theorem C3_flagged_join_amended (botId : Option Int) (s : DB)
    (chat uid : Int) (name : String) (username : Option String)
    (a b a2 b2 : Nat)
    (hself : botId ≠ some uid)
    (hnb : is_user_blocked s uid = false) :
    handle_new_member botId s chat uid name true username a b =
      (add_blocked_user s uid name username,
       [Effect.restrict chat uid, Effect.kick chat uid,
        Effect.sendMessage chat (botDetectedMessage name username)]) ∧
    handle_new_member botId
        (handle_new_member botId s chat uid name true username a b).1
        chat uid name true username a2 b2 =
      ((handle_new_member botId s chat uid name true username a b).1, []) ∧
    (alGet (handle_new_member botId s chat uid name true username
        a b).1.users uid).map UserRow.status = some Status.blocked ∧
    (handle_new_member botId s chat uid name true username a b).1.pending =
      s.pending ∧
    ((handle_new_member botId s chat uid name true username a b).2 ++
        (handle_new_member botId
          (handle_new_member botId s chat uid name true username a b).1
          chat uid name true username a2 b2).2).countP Effect.isRestrict = 1 ∧
    ((handle_new_member botId s chat uid name true username a b).2 ++
        (handle_new_member botId
          (handle_new_member botId s chat uid name true username a b).1
          chat uid name true username a2 b2).2).countP Effect.isKick = 1 ∧
    ((handle_new_member botId s chat uid name true username a b).2 ++
        (handle_new_member botId
          (handle_new_member botId s chat uid name true username a b).1
          chat uid name true username a2 b2).2).countP Effect.isSend = 1 := by
  have h1 : handle_new_member botId s chat uid name true username a b =
      (add_blocked_user s uid name username,
       [Effect.restrict chat uid, Effect.kick chat uid,
        Effect.sendMessage chat (botDetectedMessage name username)]) := by
    simp [handle_new_member, handle_new_member_f, hself, handle_bot_user, hnb]
  have hb2 : is_user_blocked (add_blocked_user s uid name username) uid =
      true := by
    simp [is_user_blocked, add_blocked_user, upsert_user, alGet_alSet_self]
  have h2 : handle_new_member botId (add_blocked_user s uid name username)
      chat uid name true username a2 b2 =
      (add_blocked_user s uid name username, []) := by
    simp [handle_new_member, handle_new_member_f, hself, handle_bot_user, hb2]
  refine ⟨h1, ?_, ?_, ?_, ?_, ?_, ?_⟩
  · rw [h1]; exact h2
  · rw [h1]; simp [add_blocked_user, upsert_user, alGet_alSet_self]
  · rw [h1]; simp [add_blocked_user, upsert_user]
  · rw [h1]; rw [h2]
    simp [List.countP_append, List.countP_cons, Effect.isRestrict]
  · rw [h1]; rw [h2]
    simp [List.countP_append, List.countP_cons, Effect.isKick]
  · rw [h1]; rw [h2]
    simp [List.countP_append, List.countP_cons, Effect.isSend]

/-- Witness for the amended C3. -/
theorem C3_flagged_join_witness :
    ((none : Option Int) ≠ some 7) ∧
    is_user_blocked sE 7 = false ∧
    ((handle_new_member none sE 100 7 "spambot" true (some "sb") 1 1).2 ++
        (handle_new_member none
          (handle_new_member none sE 100 7 "spambot" true (some "sb") 1 1).1
          100 7 "spambot" true (some "sb") 2 2).2).countP
      Effect.isRestrict = 1 ∧
    (alGet (handle_new_member none sE 100 7 "spambot" true (some "sb")
        1 1).1.users 7).map UserRow.status = some Status.blocked :=
  ⟨by decide, by decide,
    (C3_flagged_join_amended none sE 100 7 "spambot" (some "sb") 1 1 2 2
      (by decide) (by decide)).2.2.2.2.1,
    (C3_flagged_join_amended none sE 100 7 "spambot" (some "sb") 1 1 2 2
      (by decide) (by decide)).2.2.1⟩

/-- Sample store for C8: user 1 is Blocked and (through the leftover the
batch scan can produce) still has a challenge row. -/
def sC8 : DB :=
  ⟨[(1, ⟨"bob", none, Status.blocked, none, 0, 0⟩)],
   [(1, ⟨100, "bob", "3 + 4", "7", 0⟩)], 1⟩

/-- Counterexample to claim C8: a Blocked user who still has a
PendingChallenge row is NOT treated like an Unknown user on an unflagged
Join — the handler hits the pending branch, re-sends the old question,
issues no restrict and leaves the status Blocked. -/
theorem C8_blocked_rejoin_counterexample :
    (alGet sC8.users 1).map UserRow.status = some Status.blocked ∧
    (handle_new_member none sC8 100 1 "bob" false none 3 4).1 = sC8 ∧
    (handle_new_member none sC8 100 1 "bob" false none 3 4).2.countP
      Effect.isRestrict = 0 ∧
    (handle_new_member none sC8 100 1 "bob" false none 3 4).2.countP
      Effect.isSend = 1 ∧
    (alGet (handle_new_member none sC8 100 1 "bob" false none 3 4).1.users
        1).map UserRow.status = some Status.blocked := by decide

/-- Claim C8 (amended): a Blocked non-self user with no PendingChallenge
row is treated like an Unknown user by an unflagged Join: restricted, a
fresh challenge generated and persisted, and the status overwritten to
Pending. -/
theorem C8_blocked_rejoin_amended (botId : Option Int) (s : DB)
    (chat uid : Int) (name : String) (username : Option String) (a b : Nat)
    (hself : botId ≠ some uid)
    (hst : (alGet s.users uid).map UserRow.status = some Status.blocked)
    (hpd : get_pending_verification s uid = none) :
    handle_new_member botId s chat uid name false username a b =
      (add_pending_verification s uid chat name (captchaQuestion a b)
        (toString (a + b)),
       [Effect.restrict chat uid,
        Effect.sendMessage chat (welcomeMessage name (captchaQuestion a b))]) ∧
    (alGet (handle_new_member botId s chat uid name false username
        a b).1.users uid).map UserRow.status = some Status.pending ∧
    get_pending_verification
        (handle_new_member botId s chat uid name false username a b).1 uid =
      some ⟨chat, name, captchaQuestion a b, toString (a + b), s.now + 1⟩ := by
  obtain ⟨r, hr, hrs⟩ : ∃ r, alGet s.users uid = some r ∧
      r.status = Status.blocked := by
    cases halg : alGet s.users uid with
    | none => simp [halg] at hst
    | some r => exact ⟨r, rfl, by simpa [halg] using hst⟩
  have hv : is_user_verified s uid = false := by
    simp [is_user_verified, hr, hrs]
  have h1 : handle_new_member botId s chat uid name false username a b =
      (add_pending_verification s uid chat name (captchaQuestion a b)
        (toString (a + b)),
       [Effect.restrict chat uid,
        Effect.sendMessage chat (welcomeMessage name (captchaQuestion a b))]) := by
    simp [handle_new_member, handle_new_member_f, hself, hv, hpd,
      generate_captcha, add_pending_verification, add_pending_verification_f]
  refine ⟨h1, ?_, ?_⟩
  · rw [h1]
    simp [add_pending_verification, add_pending_verification_f,
      insertPendingRow, upsert_user, alGet_alSet_self]
  · rw [h1]
    simp [get_pending_verification, add_pending_verification,
      add_pending_verification_f, insertPendingRow, upsert_user,
      alGet_alSet_self]

/-- Witness for the amended C8: a Blocked user with no challenge row. -/
def sC8b : DB := ⟨[(2, ⟨"bob", some "bobby", Status.blocked, none, 0, 0⟩)], [], 3⟩

/-- Witness for the amended C8 at `sC8b`. -/
theorem C8_blocked_rejoin_witness :
    ((none : Option Int) ≠ some 2) ∧
    (alGet sC8b.users 2).map UserRow.status = some Status.blocked ∧
    get_pending_verification sC8b 2 = none ∧
    (alGet (handle_new_member none sC8b 100 2 "bob" false (some "bobby")
        3 4).1.users 2).map UserRow.status = some Status.pending ∧
    get_pending_verification
        (handle_new_member none sC8b 100 2 "bob" false (some "bobby") 3 4).1
        2 = some ⟨100, "bob", captchaQuestion 3 4, "7", 4⟩ :=
  ⟨by decide, by decide, by decide,
    (C8_blocked_rejoin_amended none sC8b 100 2 "bob" (some "bobby") 3 4
      (by decide) (by decide) (by decide)).2.1,
    (C8_blocked_rejoin_amended none sC8b 100 2 "bob" (some "bobby") 3 4
      (by decide) (by decide) (by decide)).2.2⟩

/-- The sample store sC2 satisfies the status/challenge coupling. -/
theorem coupling_sC2 : coupling sC2 := by
  intro k
  by_cases hk : k = 1
  · subst hk; decide
  · have h1 : (1 : Int) ≠ k := Ne.symm hk
    simp [sC2, alGet, h1]

/-- Counterexample to claim C1: the coupling holds before a Pending user
leaves, and is broken by the leave transition — the challenge row is
deleted while the status stays Pending. -/
theorem C1_coupling_counterexample :
    coupling sC2 ∧ ¬ coupling (handle_left_member sC2 100 1 "alice").1 :=
  ⟨coupling_sC2, fun h => absurd (h 1) (by decide)⟩

/-- Claim C1 (amended): the coupling is preserved by every message
transition and by every non-flagged join transition; it is NOT preserved
by the leave transition of a Pending user (see the counterexample) nor
by the batch scan when the detector flags a Pending user, which marks
the user Blocked but leaves the challenge row behind (third conjunct). -/
theorem C1_coupling_amended :
    (∀ (admins : Int → Bool) (s : DB) (chat uid : Int) (text : String)
        (isBot : Bool),
      coupling s → coupling (handle_message admins s chat uid text isBot).1) ∧
    (∀ (botId : Option Int) (s : DB) (chat uid : Int) (name : String)
        (username : Option String) (a b : Nat),
      coupling s →
      coupling (handle_new_member botId s chat uid name false username a b).1) ∧
    (coupling sC2 ∧ ¬ coupling (scan_users (fun k => k == 1) sC2)) :=
  ⟨fun admins s chat uid text isBot h =>
      coupling_handle_message admins s chat uid text isBot h,
   fun botId s chat uid name username a b h =>
      coupling_handle_join botId s chat uid name username a b h,
   coupling_sC2, fun h => absurd (h 1) (by decide)⟩

/-- Witness for the amended C1: the coupling instance at user 1 after a
message transition on the sample store. -/
theorem C1_coupling_witness :
    ((alGet (handle_message (fun _ => false) sC2 100 1 "hola"
        false).1.users 1).map UserRow.status = some Status.pending) ↔
      (alGet (handle_message (fun _ => false) sC2 100 1 "hola"
        false).1.pending 1).isSome = true :=
  (C1_coupling_amended.1 (fun _ => false) sC2 100 1 "hola" false
    coupling_sC2) 1

/-- Claim C4: the code is not atomic under a store failure.  With the
pending-verifications insert failing (the second of the two separate
transactions of add_pending_verification), the users table already
carries status Pending with no challenge row — not both-or-neither — and
handle_new_member has already issued the restrict call before either
write, so the restrict stands without the challenge recorded. -/
theorem C4_atomicity_code_bug :
    add_pending_verification_f true sE 1 100 "alice" "3 + 4" "7" =
      (⟨[(1, ⟨"alice", none, Status.pending, some 100, 0, 0⟩)], [], 1⟩,
       false) ∧
    (alGet (add_pending_verification_f true sE 1 100 "alice" "3 + 4"
        "7").1.users 1).map UserRow.status = some Status.pending ∧
    alGet (add_pending_verification_f true sE 1 100 "alice" "3 + 4"
        "7").1.pending 1 = none ∧
    (handle_new_member_f true none sE 100 1 "alice" false none
        3 4).2.1.countP Effect.isRestrict = 1 ∧
    (handle_new_member_f true none sE 100 1 "alice" false none 3 4).2.2 =
      false ∧
    alGet (handle_new_member_f true none sE 100 1 "alice" false none
        3 4).1.pending 1 = none ∧
    (alGet (handle_new_member_f true none sE 100 1 "alice" false none
        3 4).1.users 1).map UserRow.status = some Status.pending := by
  decide

/-- An update the handler permanently fails on. -/
def u10 : Update := ⟨10, Event.leave 0 7 "x"⟩

/-- A handler that raises exactly on update 10, every time — a permanent
processing error in the sense of the spec. -/
def okC7 : Update → Bool := fun u => u.update_id != 10

/-- Counterexample to claim C7: a permanently failing event is never
skipped — after five loop iterations the cursor still sits at 3, it is
never advanced past event id 10. -/
theorem C7_cursor_counterexample :
    okC7 u10 = false ∧
    fetchFrom [u10] 3 = [u10] ∧
    runIteration okC7 3 (fetchFrom [u10] 3) = 3 ∧
    loopOffset okC7 [u10] 3 5 = 3 := by decide

/-- Claim C7 (amended): EVERY processing failure, with no distinction
between transient and permanent, leaves the cursor unadvanced past the
failing update (the batch stops there), and as long as the head of the
fetched batch keeps failing no number of loop iterations moves the
cursor — the event is retried forever, never skipped. -/
theorem C7_cursor_amended :
    (∀ (ok : Update → Bool) (offset : Nat) (pre : List Update) (u : Update)
        (post : List Update),
      (∀ v ∈ pre, ok v = true) → ok u = false →
      runIteration ok offset (pre ++ u :: post) = runIteration ok offset pre) ∧
    (∀ (ok : Update → Bool) (all : List Update) (offset : Nat) (u : Update)
        (rest : List Update) (n : Nat),
      fetchFrom all offset = u :: rest → ok u = false →
      loopOffset ok all offset n = offset) :=
  ⟨fun ok offset pre u post h1 h2 =>
      runIteration_stops_at_failure ok offset pre u post h1 h2,
   fun ok all offset u rest n h1 h2 =>
      loopOffset_pinned ok all offset u rest h1 h2 n⟩

/-- Witness for the amended C7. -/
theorem C7_cursor_witness :
    runIteration okC7 3 ([] ++ u10 :: []) = runIteration okC7 3 [] ∧
    loopOffset okC7 [u10] 3 5 = 3 :=
  ⟨C7_cursor_amended.1 okC7 3 [] u10 [] (by simp) (by decide),
   C7_cursor_amended.2 okC7 [u10] 3 u10 [] 5 (by decide) (by decide)⟩

/-- Claim C10: upsert_user on an existing user_id replaces the whole row
and stamps created_at (and updated_at) with the current write time
instead of preserving the stored created_at, and both list queries order
their result by created_at descending — so they rank users by their most
recent status write. -/
theorem C10_created_at_reset :
    (∀ (s : DB) (uid : Int) (name : String) (st : Status)
        (username : Option String) (chat_id : Option Int) (r : UserRow),
      alGet s.users uid = some r →
      alGet (upsert_user s uid name st username chat_id).users uid =
        some ⟨name, username, st, chat_id, s.now, s.now⟩) ∧
    (∀ s : DB, List.Sorted createdDesc (get_blocked_users s)) ∧
    (∀ s : DB, List.Sorted createdDesc (get_all_users_for_scanning s)) := by
  refine ⟨?_, ?_, ?_⟩
  · intro s uid name st username chat_id r _hr
    simp [upsert_user, alGet_alSet_self]
  · intro s
    exact List.sorted_insertionSort createdDesc _
  · intro s
    exact List.sorted_insertionSort createdDesc _

/-- Witness for C10: alice existed with created_at 0, the clock is at 1,
and after the upsert her row carries created_at 1. -/
theorem C10_created_at_reset_witness :
    alGet sC2.users 1 = some urC2 ∧
    urC2.created_at = 0 ∧
    sC2.now = 1 ∧
    alGet (upsert_user sC2 1 "alice" Status.verified none none).users 1 =
      some ⟨"alice", none, Status.verified, none, 1, 1⟩ :=
  ⟨by decide, by decide, by decide,
    C10_created_at_reset.1 sC2 1 "alice" Status.verified none none urC2
      (by decide)⟩
